import Mathlib

/-
Verification of the memflow repository specification against a shallow
embedding of the sources:
  memflow-core/src/architecture/x86.rs
  memflow/src/mem/phys_mem.rs
  memflow-win32/src/win32/kernel.rs
Addresses are modelled as Nat (u64 values stay far below 2^64 in every
claim under test, so no wrap-around is involved); fallible reads become
Except values; the physical/virtual backends are abstract function
records, since their implementations are external connectors.
-/

namespace Memflow

/-! ## Architecture / MMU specification (memflow-core/src/architecture) -/

/-- Mirror of the Rust struct ArchMMUSpec (declared in the mmu_spec module,
used and populated by x86.rs lines 13-25). -/
structure ArchMMUSpec where
  virtual_address_splits : List Nat
  valid_final_page_steps : List Nat
  address_space_bits : Nat
  addr_size : Nat
  pte_size : Nat
  present_bit : Nat
  writeable_bit : Nat
  nx_bit : Nat
  large_page_bit : Nat
deriving DecidableEq

/-- Modelled from the spec: make_bit_mask(lo, hi) is the mask whose set bits
are exactly the span lo..=hi (spec section 4.2 describes frame bits spanning
a half-open interval of bit positions). For lo le hi+1 this is
2^(hi+1) - 2^lo; the mmu_spec module holding the Rust source is not among
the source files. -/
def make_bit_mask (lo hi : Nat) : Nat :=
  2 ^ (hi + 1) - 2 ^ lo

/-- Trailing-zero count of a natural number (total, fuel = the number
itself), mirroring u64 trailing_zeros for the nonzero inputs used here. -/
def ctzAux : Nat → Nat → Nat
  | 0, _ => 0
  | fuel + 1, n => if n % 2 = 0 ∧ n ≠ 0 then ctzAux fuel (n / 2) + 1 else 0

/-- Trailing zeros of n (n = 0 gives 0). -/
def ctz (n : Nat) : Nat :=
  ctzAux n n

/-- Source: x86.rs lines 5-7, const fn bits() -> u8 { 32 }. -/
def x86_bits : Nat := 32

/-- Source: x86.rs lines 13-25, the x86 non-PAE MMU specification. -/
def get_mmu_spec : ArchMMUSpec where
  virtual_address_splits := [10, 10, 12]
  valid_final_page_steps := [1, 2]
  address_space_bits := 32
  addr_size := 4
  pte_size := 4
  present_bit := 0
  writeable_bit := 1
  nx_bit := 31
  large_page_bit := 7

/-- Source: Address::invalid() is the all-ones u64, the value the test
x86_pte_bitmasks feeds to pte_addr_mask. -/
def addr_invalid : Nat := 0xFFFFFFFFFFFFFFFF

/-- Modelled from the spec: the mmu_spec module is not among the source
files; pte_addr_mask(pte_addr, step) masks a page table entry down to the
frame bits [lo(step), address_space_bits) (spec section 4.2: permission and
reserved bits are masked out before forming the child table address). The
in-repo test x86_pte_bitmasks (x86.rs lines 34-41) pins lo(step) = 12 for
every x86 step, i.e. virtual_address_splits[step] plus
trailing_zeros(pte_size) at non-final steps and virtual_address_splits[step]
alone at the final step; the model uses that derivation. -/
def pte_addr_mask (s : ArchMMUSpec) (pte_addr : Nat) (step : Nat) : Nat :=
  let lo := s.virtual_address_splits.getD step 0 +
    (if step = s.virtual_address_splits.length - 1 then 0 else ctz s.pte_size)
  pte_addr &&& make_bit_mask lo (s.address_space_bits - 1)

/-- Modelled from the spec: size of the region mapped by one entry at a
given walk step, 1 shifted by the sum of the splits from that step on
(spec section 4.2, index and leaf masks). -/
def page_size_step (s : ArchMMUSpec) (step : Nat) : Nat :=
  2 ^ ((s.virtual_address_splits.drop step).sum)

/-- Modelled from the spec: leaf page size for a page map level counted
from the leaf side (level 1 = finest); the in-repo test x86_page_size_level
(x86.rs lines 50-55) pins page_size_level(1) = 4 KiB and
page_size_level(2) = 4 MiB for x86, which this derivation reproduces. -/
def page_size_level (s : ArchMMUSpec) (page_map_level : Nat) : Nat :=
  page_size_step s (s.virtual_address_splits.length - page_map_level)

/-! ## Physical memory interface (memflow/src/mem/phys_mem.rs) -/

/-- Outcome delivered by a backend for one element of a read batch:
either the bytes read, or a per-element failure (routed to the failure
callback by the caller). -/
inductive ReadOutcome where
  | bytes (bs : List Nat)
  | fail
deriving DecidableEq

/-- Abstract physical memory backend (the two required methods of the
PhysicalMemory trait, phys_mem.rs lines 125-134). A read batch is a list
of (address, requested length); the backend answers with a fatal error or
one outcome per element. A write batch is a list of (address, bytes);
the backend answers with a fatal error or one success flag per element. -/
structure PhysicalMemoryModel where
  read_iter : List (Nat × Nat) → Except Unit (List ReadOutcome)
  write_iter : List (Nat × List Nat) → Except Unit (List Bool)

/-- Semantics of calling phys_read_raw_iter on a batch of
(address, buffer) pairs with a failure callback acting on the buffer of a
failed element: buffers of successful elements receive the bytes read,
buffers of failed elements are transformed by the callback, and a fatal
backend error aborts the call. -/
def run_phys_read_raw_iter (M : PhysicalMemoryModel)
    (data : List (Nat × List Nat)) (out_fail : List Nat → List Nat) :
    Except Unit (List (List Nat)) :=
  match M.read_iter (data.map (fun p => (p.1, p.2.length))) with
  | .error e => .error e
  | .ok outs =>
      .ok ((data.zip outs).map (fun p =>
        match p.2 with
        | .bytes bs => bs
        | .fail => out_fail p.1.2))

/-- Semantics of calling phys_write_raw_iter on a batch; the installed
failure callback of phys_write has no observable buffer effect, so the
result is the per-element success flags. -/
def run_phys_write_raw_iter (M : PhysicalMemoryModel)
    (data : List (Nat × List Nat)) : Except Unit (List Bool) :=
  M.write_iter data

/-- Source: phys_mem.rs lines 162-176. Builds the one-element iterator
from Some(MemData(addr, out)) and installs the failure callback that
zeroes every byte of the destination buffer, then calls
phys_read_raw_iter. The Pod value is represented by its byte list. -/
def phys_read_into (M : PhysicalMemoryModel) (addr : Nat) (out : List Nat) :
    Except Unit (List (List Nat)) :=
  let iter := (some (addr, out)).toList
  run_phys_read_raw_iter M iter (fun d => d.map (fun _ => 0))

/-- Source: phys_mem.rs lines 178-185. Builds the one-element iterator
from Some(MemData(addr, data)) and installs the trivial failure callback,
then calls phys_write_raw_iter. -/
def phys_write (M : PhysicalMemoryModel) (addr : Nat) (data : List Nat) :
    Except Unit (List Bool) :=
  let iter := (some (addr, data)).toList
  run_phys_write_raw_iter M iter

/-- The spec sentence, as a definition: the scalar read is
phys_read_raw_iter applied to the single-element batch [(addr, out)],
with the zero-fill failure callback of the scalar helper. -/
def spec_scalar_read (M : PhysicalMemoryModel) (addr : Nat)
    (out : List Nat) : Except Unit (List (List Nat)) :=
  run_phys_read_raw_iter M [(addr, out)] (fun d => d.map (fun _ => 0))

/-- The spec sentence, as a definition: the scalar write is
phys_write_raw_iter applied to the single-element batch [(addr, data)]. -/
def spec_scalar_write (M : PhysicalMemoryModel) (addr : Nat)
    (data : List Nat) : Except Unit (List Bool) :=
  run_phys_write_raw_iter M [(addr, data)]

/-- Concrete backend that fails every read element (and accepts every
write element); used to witness the failure path. -/
def failMem : PhysicalMemoryModel where
  read_iter := fun batch => .ok (batch.map (fun _ => .fail))
  write_iter := fun batch => .ok (batch.map (fun _ => true))

/-! ## Windows kernel view (memflow-win32/src/win32/kernel.rs) -/

/-- Modelled from the spec: the Architecture type of memflow-core is not
among the source files; every decision the kernel code takes branches on
its bits() value (spec section 3 lists the bits variants, and the error
taxonomy of section 7 allows an unsupported bits() value), so an
architecture is modelled by that value. -/
structure Architecture where
  bits : Nat
deriving DecidableEq

/-- Architecture::X86 (bits() = 32). -/
def ArchX86 : Architecture := ⟨32⟩

/-- Architecture::X64 (bits() = 64). -/
def ArchX64 : Architecture := ⟨64⟩

/-- Modelled from the spec: the memflow-win32 Error enum is not among the
source files; the variants below are the ones kernel.rs constructs or
forwards (InvalidArchitecture, Other with a static message, ProcessInfo,
ModuleInfo) plus a carrier for errors produced by virtual reads. -/
inductive Error where
  | InvalidArchitecture
  | Other (msg : String)
  | ProcessInfo
  | ModuleInfo
  | ReadFail (code : Nat)
deriving DecidableEq

/-- The Win32Offsets fields consumed by kernel.rs (the offsets module is
external; lookup is pure and total, spec section 6). -/
structure Win32Offsets where
  kproc_dtb : Nat
  eproc_link : Nat
  list_blink : Nat
  eproc_pid : Nat
  eproc_name : Nat
  eproc_wow64 : Nat
  eproc_peb : Nat
  eproc_thread_list : Nat
  ethread_list_entry : Nat
  kthread_teb : Nat
  teb_peb : Nat
  teb_peb_x86 : Nat
  peb_ldr_x64 : Nat
  peb_ldr_x86 : Nat
  ldr_list_x64 : Nat
  ldr_list_x86 : Nat
  ldr_data_base_x64 : Nat
  ldr_data_size_x64 : Nat
  ldr_data_name_x64 : Nat
  ldr_data_base_x86 : Nat
  ldr_data_size_x86 : Nat
  ldr_data_name_x86 : Nat
deriving DecidableEq

/-- The start block of KernelInfo as consumed by kernel.rs: the system
architecture and the winload DTB. -/
structure StartBlock where
  arch : Architecture
  dtb : Nat
deriving DecidableEq

/-- The KernelInfo fields consumed by kernel.rs. -/
structure KernelInfo where
  start_block : StartBlock
  eprocess_base : Nat
  kernel_base : Nat
deriving DecidableEq

/-- Abstract virtual read environment: the composition of the physical
memory connector and the translator (phys_mem plus vat). A reader built
by VirtualFromPhysical with a (system arch, process arch, dtb) triple is
modelled by partially applying these functions to that triple. Reads are
pure: the guest memory is a fixed snapshot for the duration of a call
(spec section 5, ordering guarantees). -/
structure Mem where
  read_addr : Architecture → Architecture → Nat → Nat → Except Error Nat
  read_i32 : Architecture → Architecture → Nat → Nat → Except Error Int
  read_cstr : Architecture → Architecture → Nat → Nat → Nat → Except Error String

/-- The process information record built by kernel.rs (the declaring
process module is not among the source files; the fields are exactly the
ones kernel.rs populates at lines 332-352, and the name() and pid()
accessors used at lines 369-380 return the corresponding fields). -/
structure Win32ProcessInfo where
  address : Nat
  pid : Int
  name : String
  dtb : Nat
  ethread : Nat
  wow64 : Nat
  teb : Nat
  peb : Nat
  peb_module : Nat
  sys_arch : Architecture
  proc_arch : Architecture
  ldr_data_base_offs : Nat
  ldr_data_size_offs : Nat
  ldr_data_name_offs : Nat
deriving DecidableEq

/-- Source: kernel.rs lines 28-36, the Kernel struct; phys_mem and vat
are abstracted into the read environment. -/
structure Kernel where
  mem : Mem
  offsets : Win32Offsets
  kernel_info : KernelInfo
  sysproc_dtb : Nat

/-- The system architecture of a kernel (kernel_info.start_block.arch). -/
def Kernel.sarch (k : Kernel) : Architecture :=
  k.kernel_info.start_block.arch

/-- Reader built with VirtualFromPhysical::with_vat(phys, sys_arch,
sys_arch, sysproc_dtb, vat), reading a pointer-width value. -/
def Kernel.sys_read_addr (k : Kernel) (a : Nat) : Except Error Nat :=
  k.mem.read_addr k.sarch k.sarch k.sysproc_dtb a

/-- Same reader, reading an i32. -/
def Kernel.sys_read_i32 (k : Kernel) (a : Nat) : Except Error Int :=
  k.mem.read_i32 k.sarch k.sarch k.sysproc_dtb a

/-- Same reader, reading a C string of at most n bytes. -/
def Kernel.sys_read_cstr (k : Kernel) (a n : Nat) : Except Error String :=
  k.mem.read_cstr k.sarch k.sarch k.sysproc_dtb a n

/-- Reader built with VirtualFromPhysical::new(phys, sys_arch, proc_arch,
dtb), reading a pointer-width value in the process context. -/
def Kernel.proc_read_addr (k : Kernel) (proc_arch : Architecture)
    (dtb a : Nat) : Except Error Nat :=
  k.mem.read_addr k.sarch proc_arch dtb a

/-- Source: kernel.rs lines 41-75, Kernel::new. Total: there is no error
path. A reader over the winload DTB reads the system process DTB at
eprocess_base + kproc_dtb; on failure the winload DTB is kept. -/
def Kernel.new (m : Mem) (offsets : Win32Offsets) (ki : KernelInfo) :
    Kernel :=
  let sysproc_dtb :=
    match m.read_addr ki.start_block.arch ki.start_block.arch
        ki.start_block.dtb (ki.eprocess_base + offsets.kproc_dtb) with
    | .ok dtb => dtb
    | .error _ => ki.start_block.dtb
  ⟨m, offsets, ki, sysproc_dtb⟩

/-- Source: kernel.rs lines 209-353, Kernel::process_info_from_eprocess,
translated read for read; null addresses are the value 0 and question-mark
propagation becomes Except.bind. -/
def process_info_from_eprocess (k : Kernel) (eprocess : Nat) :
    Except Error Win32ProcessInfo :=
  (k.sys_read_i32 (eprocess + k.offsets.eproc_pid)).bind fun pid =>
  (k.sys_read_cstr (eprocess + k.offsets.eproc_name) 16).bind fun name =>
  (k.sys_read_addr (eprocess + k.offsets.kproc_dtb)).bind fun dtb =>
  (if k.offsets.eproc_wow64 = 0 then Except.ok 0
   else k.sys_read_addr (eprocess + k.offsets.eproc_wow64)).bind fun wow64 =>
  (if k.sarch.bits = 64 then
     Except.ok (if wow64 = 0 then ArchX64 else ArchX86)
   else if k.sarch.bits = 32 then Except.ok ArchX86
   else Except.error Error.InvalidArchitecture).bind fun proc_arch =>
  (k.sys_read_addr (eprocess + k.offsets.eproc_peb)).bind fun _native_peb =>
  (k.sys_read_addr (eprocess + k.offsets.eproc_thread_list)).bind fun et0 =>
  (if wow64 = 0 then
     k.sys_read_addr (et0 - k.offsets.ethread_list_entry + k.offsets.kthread_teb)
   else (k.sys_read_addr
       (et0 - k.offsets.ethread_list_entry + k.offsets.kthread_teb)).bind fun t =>
     Except.ok (t + 0x2000)).bind fun teb =>
  (if wow64 = 0 then k.proc_read_addr proc_arch dtb (teb + k.offsets.teb_peb)
   else k.proc_read_addr proc_arch dtb
     (teb + k.offsets.teb_peb_x86)).bind fun teb_peb =>
  (if teb_peb ≠ 0 then Except.ok teb_peb
   else k.proc_read_addr proc_arch dtb
     (eprocess + k.offsets.eproc_peb)).bind fun real_peb =>
  (if proc_arch.bits = 64 then
     Except.ok (k.offsets.peb_ldr_x64, k.offsets.ldr_list_x64)
   else if proc_arch.bits = 32 then
     Except.ok (k.offsets.peb_ldr_x86, k.offsets.ldr_list_x86)
   else Except.error Error.InvalidArchitecture).bind fun po =>
  (k.proc_read_addr proc_arch dtb (real_peb + po.1)).bind fun peb_ldr =>
  (k.proc_read_addr proc_arch dtb (peb_ldr + po.2)).bind fun peb_module =>
  (if proc_arch.bits = 64 then
     Except.ok (k.offsets.ldr_data_base_x64, k.offsets.ldr_data_size_x64,
       k.offsets.ldr_data_name_x64)
   else if proc_arch.bits = 32 then
     Except.ok (k.offsets.ldr_data_base_x86, k.offsets.ldr_data_size_x86,
       k.offsets.ldr_data_name_x86)
   else Except.error Error.InvalidArchitecture).bind fun lo =>
  Except.ok
    { address := eprocess
      pid := pid
      name := name
      dtb := dtb
      ethread := et0 - k.offsets.ethread_list_entry
      wow64 := wow64
      teb := teb
      peb := real_peb
      peb_module := peb_module
      sys_arch := k.sarch
      proc_arch := proc_arch
      ldr_data_base_offs := lo.1
      ldr_data_size_offs := lo.2.1
      ldr_data_name_offs := lo.2.2 }

/-- Source: kernel.rs lines 82-120, the flink walk of Kernel::eprocess_list.
The guest list is unbounded, so the loop carries explicit fuel; every
claim under test is insensitive to the fuel value. -/
def eprocess_list_loop (k : Kernel) (list_start : Nat) :
    Nat → Nat → List Nat → Except Error (List Nat)
  | 0, _, acc => Except.ok acc.reverse
  | fuel + 1, list_entry, acc =>
    let eprocess := list_entry - k.offsets.eproc_link
    (k.sys_read_addr list_entry).bind fun flink =>
    (k.sys_read_addr (list_entry + k.offsets.list_blink)).bind fun blink =>
    if flink = 0 ∨ blink = 0 ∨ flink = list_start then Except.ok acc.reverse
    else eprocess_list_loop k list_start fuel flink (eprocess :: acc)

/-- Source: kernel.rs lines 82-120, Kernel::eprocess_list. -/
def eprocess_list (fuel : Nat) (k : Kernel) : Except Error (List Nat) :=
  let list_start := k.kernel_info.eprocess_base + k.offsets.eproc_link
  eprocess_list_loop k list_start fuel list_start []

/-- Source: kernel.rs lines 355-363, Kernel::process_info_list: every
eprocess whose info resolves is kept, failing ones are skipped. -/
def process_info_list (fuel : Nat) (k : Kernel) :
    Except Error (List Win32ProcessInfo) :=
  (eprocess_list fuel k).bind fun eprocs =>
  Except.ok (eprocs.filterMap (fun e => (process_info_from_eprocess k e).toOption))

/-- Source: kernel.rs lines 365-372, Kernel::process_info_pid: first list
entry with the requested pid, or the static not-found error. -/
def process_info_pid (fuel : Nat) (k : Kernel) (pid : Int) :
    Except Error Win32ProcessInfo :=
  (process_info_list fuel k).bind fun l =>
  match l.find? (fun p => p.pid == pid) with
  | some p => Except.ok p
  | none => Except.error (Error.Other "pid not found")

/-- Source: kernel.rs line 380, the byte slice name[..name.len().min(14)]
of the queried name. -/
def query_take_14 (name : String) : String :=
  ⟨name.data.take (min name.data.length 14)⟩

/-- Source: kernel.rs lines 374-382, the candidate selection of
Kernel::process_info: processes whose lowercased stored name equals the
lowercased 14-byte-capped query name. -/
def process_info_candidates (fuel : Nat) (k : Kernel) (name : String) :
    Except Error (List Win32ProcessInfo) :=
  (process_info_list fuel k).bind fun l =>
  Except.ok (l.filter (fun p =>
    p.name.toLower == (query_take_14 name).toLower))

/-! ## Concrete instances used by witnesses and counterexamples -/

/-- Offsets instance with distinct, realistic values. -/
def offsW : Win32Offsets where
  kproc_dtb := 0x28
  eproc_link := 0x2f0
  list_blink := 0x8
  eproc_pid := 0x2e0
  eproc_name := 0x450
  eproc_wow64 := 0x548
  eproc_peb := 0x3f8
  eproc_thread_list := 0x488
  ethread_list_entry := 0
  kthread_teb := 0xf0
  teb_peb := 0x60
  teb_peb_x86 := 0x30
  peb_ldr_x64 := 0x18
  peb_ldr_x86 := 0xc
  ldr_list_x64 := 0x10
  ldr_list_x86 := 0xc
  ldr_data_base_x64 := 0x30
  ldr_data_size_x64 := 0x40
  ldr_data_name_x64 := 0x58
  ldr_data_base_x86 := 0x18
  ldr_data_size_x86 := 0x20
  ldr_data_name_x86 := 0x2c

/-- Read environment where every read succeeds with fixed small values. -/
def memAllOk : Mem where
  read_addr := fun _ _ _ _ => .ok 1
  read_i32 := fun _ _ _ _ => .ok 7
  read_cstr := fun _ _ _ _ _ => .ok "sys"

/-- Read environment where every read fails. -/
def memAllFail : Mem where
  read_addr := fun _ _ _ _ => .error (Error.ReadFail 9)
  read_i32 := fun _ _ _ _ => .error (Error.ReadFail 9)
  read_cstr := fun _ _ _ _ _ => .error (Error.ReadFail 9)

/-- Read environment where pointer reads return the null address. -/
def memAllNull : Mem where
  read_addr := fun _ _ _ _ => .ok 0
  read_i32 := fun _ _ _ _ => .ok 0
  read_cstr := fun _ _ _ _ _ => .ok ""

/-- KernelInfo over a 64-bit system. -/
def kiX64 : KernelInfo where
  start_block := ⟨ArchX64, 0x1aa000⟩
  eprocess_base := 0x100000
  kernel_base := 0x200000

/-- KernelInfo whose architecture reports 16 bits, neither 32 nor 64. -/
def kiBad : KernelInfo where
  start_block := ⟨⟨16⟩, 0x1aa000⟩
  eprocess_base := 0x100000
  kernel_base := 0x200000

/-- Kernel over a 64-bit system where every read succeeds. -/
def kernOk : Kernel := ⟨memAllOk, offsW, kiX64, 0x1000⟩

/-- Kernel with an unsupported architecture and a dead backend. -/
def kernBadArchDeadMem : Kernel := ⟨memAllFail, offsW, kiBad, 0x1000⟩

/-- Kernel with an unsupported architecture whose reads all succeed. -/
def kernBadArchOkMem : Kernel := ⟨memAllOk, offsW, kiBad, 0x1000⟩

/-- Kernel whose process list is empty (the first flink read is null). -/
def kernEmpty : Kernel := ⟨memAllNull, offsW, kiX64, 0x1000⟩

/-- The process info produced by kernOk at eprocess 0x100000: every
pointer read yields 1, so the wow64 pointer is non-null and the teb gets
the 0x2000 adjustment. -/
def infoW : Win32ProcessInfo where
  address := 0x100000
  pid := 7
  name := "sys"
  dtb := 1
  ethread := 1
  wow64 := 1
  teb := 0x2001
  peb := 1
  peb_module := 1
  sys_arch := ArchX64
  proc_arch := ArchX86
  ldr_data_base_offs := 0x18
  ldr_data_size_offs := 0x20
  ldr_data_name_offs := 0x2c

/-- The process info produced by kernEmpty at eprocess 0x100000: every
pointer read yields 0, so the wow64 pointer is null and the teb is kept
unmodified. -/
def infoN : Win32ProcessInfo where
  address := 0x100000
  pid := 0
  name := ""
  dtb := 0
  ethread := 0
  wow64 := 0
  teb := 0
  peb := 0
  peb_module := 0
  sys_arch := ArchX64
  proc_arch := ArchX64
  ldr_data_base_offs := 0x30
  ldr_data_size_offs := 0x40
  ldr_data_name_offs := 0x58

/-! ## Helper lemmas -/

theorem except_bind_ok {ε α β : Type} (a : α) (f : α → Except ε β) :
    (Except.ok a : Except ε α).bind f = f a := rfl

theorem except_bind_err {ε α β : Type} (e : ε) (f : α → Except ε β) :
    (Except.error e : Except ε α).bind f = Except.error e := rfl

theorem except_bind_eq_ok {ε α β : Type} {x : Except ε α} {f : α → Except ε β}
    {b : β} (h : x.bind f = .ok b) : ∃ a, x = .ok a ∧ f a = .ok b := by
  cases x with
  | error e => exact absurd h (by simp [Except.bind])
  | ok a => exact ⟨a, rfl, h⟩

theorem list_map_zero (l : List Nat) :
    l.map (fun _ => 0) = List.replicate l.length 0 := by
  simp [List.map_const']

theorem take_min_length {α : Type} (l : List α) (n : Nat) :
    l.take (min l.length n) = l.take n := by
  induction l generalizing n with
  | nil => simp
  | cons a t ih =>
    cases n with
    | zero => simp
    | succ m => simp [Nat.succ_min_succ, ih]

theorem list_find_decomp {α : Type} (f : α → Bool) :
    ∀ (l : List α) (p : α), l.find? f = some p →
      ∃ l1 l2, l = l1 ++ p :: l2 ∧ f p = true ∧ ∀ q ∈ l1, f q = false := by
  intro l
  induction l with
  | nil => intro p h; exact absurd h (by simp)
  | cons a t ih =>
    intro p h
    cases ha : f a with
    | true =>
      simp only [List.find?, ha, Option.some.injEq] at h
      subst h
      exact ⟨[], t, rfl, ha, by simp⟩
    | false =>
      simp only [List.find?, ha] at h
      obtain ⟨l1, l2, hsplit, hfp, hall⟩ := ih p h
      refine ⟨a :: l1, l2, by rw [hsplit]; rfl, hfp, ?_⟩
      intro q hq
      cases hq with
      | head => exact ha
      | tail _ hq => exact hall q hq

/-! ## Claim theorems -/

/-- C1 (counterexample): the claim says the PTE address mask at level L is
make_bit_mask(sum(splits[0..L]), address_space_bits - 1); at level 1 of the
x86 spec that formula yields make_bit_mask(10, 31) = 0xFFFFFC00, while
pte_addr_mask applied to Address::invalid() is 0xFFFFF000 = make_bit_mask(12, 31),
the value the in-repo test x86_pte_bitmasks asserts. -/
theorem c1_pte_addr_mask_counterexample :
    pte_addr_mask get_mmu_spec addr_invalid 1 ≠
      make_bit_mask ((get_mmu_spec.virtual_address_splits.take 1).sum)
        (get_mmu_spec.address_space_bits - 1) := by
  decide

/-- C1 (amended): for the x86 spec, the PTE address mask at every level
L in 0, 1, 2 equals make_bit_mask(12, 31): the low frame bit is
virtual_address_splits[L] plus trailing_zeros(pte_size) at non-final levels
and virtual_address_splits[L] at the final level, not sum(splits[0..L]). -/
theorem c1_pte_addr_mask_amended (addr L : Nat) (h : L < 3) :
    pte_addr_mask get_mmu_spec addr L = addr &&& make_bit_mask 12 31 := by
  interval_cases L <;> rfl

/-- C1 (witness): the amended statement applied at level 1 and the
all-ones address of the test x86_pte_bitmasks. -/
theorem c1_pte_addr_mask_witness :
    (1 < 3) ∧ pte_addr_mask get_mmu_spec addr_invalid 1 = 0xFFFFF000 := by
  refine ⟨by decide, ?_⟩
  rw [c1_pte_addr_mask_amended addr_invalid 1 (by decide)]
  decide

/-- C2: for the x86 spec the leaf page size at level L is 1 shifted by the
sum of the L+1 leaf-side splits; in particular the level-0 leaf page size
(page_size_level(1) in the code, test x86_page_size_level line 53) is
4 KiB and the level-1 leaf page size (page_size_level(2), line 54) is
4 MiB. -/
theorem c2_page_size_levels :
    page_size_level get_mmu_spec 1 =
      2 ^ ((get_mmu_spec.virtual_address_splits.drop 2).sum) ∧
    page_size_level get_mmu_spec 2 =
      2 ^ ((get_mmu_spec.virtual_address_splits.drop 1).sum) ∧
    page_size_level get_mmu_spec 1 = 4096 ∧
    page_size_level get_mmu_spec 2 = 4 * 1024 * 1024 := by
  refine ⟨rfl, rfl, by decide, by decide⟩

/-- C8: the x86 ArchMMUSpec satisfies the stated invariants: the splits
sum to the 32 bits reported by bits(); every valid final page step indexes
a split; pte_size = 4 is a power of two and divides the page size at each
page map level. -/
theorem c8_x86_mmu_invariants :
    get_mmu_spec.virtual_address_splits.sum = x86_bits ∧
    (∀ s ∈ get_mmu_spec.valid_final_page_steps,
      s < get_mmu_spec.virtual_address_splits.length) ∧
    get_mmu_spec.pte_size = 2 ^ 2 ∧
    (∀ lvl ∈ [1, 2, 3],
      get_mmu_spec.pte_size ∣ page_size_level get_mmu_spec lvl) := by
  refine ⟨by decide, by decide, by decide, by decide⟩

/-- C3: the scalar helpers are defined by reduction to the batch
primitives: phys_read_into(addr, out) is phys_read_raw_iter on the
single-element batch [(addr, out)] with the zero-fill callback, and
phys_write(addr, data) is phys_write_raw_iter on [(addr, data)]. -/
theorem c3_scalar_batch_reduction (M : PhysicalMemoryModel) (addr : Nat)
    (out data : List Nat) :
    phys_read_into M addr out = spec_scalar_read M addr out ∧
    phys_write M addr data = spec_scalar_write M addr data :=
  ⟨rfl, rfl⟩

/-- C4: phys_read_into returns Ok whenever the backend call returns Ok,
regardless of a per-element failure, and the installed failure callback
zeroes every byte of the failed element buffer. -/
theorem c4_read_fail_zero_fill (M : PhysicalMemoryModel) (addr : Nat)
    (out : List Nat) (outs : List ReadOutcome)
    (h : M.read_iter [(addr, out.length)] = .ok outs) :
    (∃ bufs, phys_read_into M addr out = .ok bufs) ∧
    (outs = [ReadOutcome.fail] →
      phys_read_into M addr out = .ok [List.replicate out.length 0]) := by
  constructor
  · unfold phys_read_into run_phys_read_raw_iter
    simp only [Option.toList_some, List.map_cons, List.map_nil, h]
    exact ⟨_, rfl⟩
  · intro hf
    subst hf
    unfold phys_read_into run_phys_read_raw_iter
    simp only [Option.toList_some, List.map_cons, List.map_nil, h,
      List.zip_cons_cons, List.zip_nil_right]
    rw [list_map_zero]

/-- C4 (witness): against the backend that fails every element, the
scalar read of a 3-byte buffer succeeds and delivers a zeroed buffer. -/
theorem c4_read_fail_zero_fill_witness :
    (∃ bufs, phys_read_into failMem 0 [5, 6, 7] = .ok bufs) ∧
    phys_read_into failMem 0 [5, 6, 7] = .ok [[0, 0, 0]] := by
  have h := c4_read_fail_zero_fill failMem 0 [5, 6, 7] [ReadOutcome.fail] rfl
  exact ⟨h.1, h.2 rfl⟩

/-- C9: Kernel::new is total (it returns a Kernel for every input, the
type has no error path); its sysproc_dtb equals the address read under
the winload DTB at eprocess_base + kproc_dtb when that read succeeds and
falls back to kernel_info.start_block.dtb when it fails; the remaining
fields are the arguments unchanged. -/
theorem c9_kernel_new_fallback (m : Mem) (o : Win32Offsets)
    (ki : KernelInfo) :
    (∀ v, m.read_addr ki.start_block.arch ki.start_block.arch
        ki.start_block.dtb (ki.eprocess_base + o.kproc_dtb) = .ok v →
      (Kernel.new m o ki).sysproc_dtb = v) ∧
    (∀ e, m.read_addr ki.start_block.arch ki.start_block.arch
        ki.start_block.dtb (ki.eprocess_base + o.kproc_dtb) = .error e →
      (Kernel.new m o ki).sysproc_dtb = ki.start_block.dtb) ∧
    (Kernel.new m o ki).mem = m ∧
    (Kernel.new m o ki).offsets = o ∧
    (Kernel.new m o ki).kernel_info = ki := by
  refine ⟨fun v hv => ?_, fun e he => ?_, rfl, rfl, rfl⟩
  · simp only [Kernel.new, hv]
  · simp only [Kernel.new, he]

/-- C9 (witness): the success path yields the value read and the failure
path yields the winload DTB. -/
theorem c9_kernel_new_fallback_witness :
    (Kernel.new memAllOk offsW kiX64).sysproc_dtb = 1 ∧
    (Kernel.new memAllFail offsW kiX64).sysproc_dtb = 0x1aa000 :=
  ⟨(c9_kernel_new_fallback memAllOk offsW kiX64).1 1 rfl,
   (c9_kernel_new_fallback memAllFail offsW kiX64).2.1 (Error.ReadFail 9) rfl⟩

/-- C6 (counterexample): with an unsupported architecture (bits() = 16)
and a dead backend, process_info_from_eprocess returns the read error of
the very first EPROCESS field read, not InvalidArchitecture: the field
reads precede the architecture check. -/
theorem c6_invalid_architecture_counterexample :
    process_info_from_eprocess kernBadArchDeadMem 0x100000 =
      Except.error (Error.ReadFail 9) ∧
    process_info_from_eprocess kernBadArchDeadMem 0x100000 ≠
      Except.error Error.InvalidArchitecture := by
  refine ⟨rfl, fun hc => ?_⟩
  have h2 : (Except.error (Error.ReadFail 9) : Except Error Win32ProcessInfo) =
      Except.error Error.InvalidArchitecture := by
    calc (Except.error (Error.ReadFail 9) : Except Error Win32ProcessInfo)
        = process_info_from_eprocess kernBadArchDeadMem 0x100000 := rfl
      _ = Except.error Error.InvalidArchitecture := hc
  injection h2 with h3
  exact Error.noConfusion h3

/-- C6 (amended): if bits() is neither 64 nor 32 and the EPROCESS field
reads preceding the architecture check (pid, name, dtb, and the wow64
pointer when eproc_wow64 is non-zero) succeed, then
process_info_from_eprocess returns InvalidArchitecture and produces no
Win32ProcessInfo; in this pure embedding the call cannot modify the
Kernel fields. -/
theorem c6_invalid_architecture (k : Kernel) (e : Nat) (p : Int)
    (nm : String) (d : Nat)
    (h64 : k.sarch.bits ≠ 64) (h32 : k.sarch.bits ≠ 32)
    (hp : k.sys_read_i32 (e + k.offsets.eproc_pid) = .ok p)
    (hn : k.sys_read_cstr (e + k.offsets.eproc_name) 16 = .ok nm)
    (hd : k.sys_read_addr (e + k.offsets.kproc_dtb) = .ok d)
    (hw : k.offsets.eproc_wow64 ≠ 0 →
      ∃ w, k.sys_read_addr (e + k.offsets.eproc_wow64) = .ok w) :
    process_info_from_eprocess k e = .error Error.InvalidArchitecture := by
  unfold process_info_from_eprocess
  simp only [hp, except_bind_ok, hn, hd]
  by_cases h0 : k.offsets.eproc_wow64 = 0
  · simp only [if_pos h0, except_bind_ok, if_neg h64, if_neg h32,
      except_bind_err]
  · obtain ⟨w, hwv⟩ := hw h0
    simp only [if_neg h0, hwv, except_bind_ok, if_neg h64, if_neg h32,
      except_bind_err]

/-- C6 (witness): a kernel whose architecture reports 16 bits and whose
reads all succeed reaches the architecture check and fails there. -/
theorem c6_invalid_architecture_witness :
    process_info_from_eprocess kernBadArchOkMem 0x100000 =
      .error Error.InvalidArchitecture :=
  c6_invalid_architecture kernBadArchOkMem 0x100000 7 "sys" 1
    (by decide) (by decide) rfl rfl rfl (fun _ => ⟨1, rfl⟩)

/-- C5: when process_info_from_eprocess succeeds, the teb field of the
returned info is the address read at ethread + kthread_teb, plus 0x2000
exactly when the wow64 pointer is non-null. -/
theorem c5_teb_wow64_adjustment (k : Kernel) (e : Nat)
    (info : Win32ProcessInfo)
    (h : process_info_from_eprocess k e = .ok info) :
    (info.wow64 = 0 →
      k.sys_read_addr (info.ethread + k.offsets.kthread_teb) =
        .ok info.teb) ∧
    (info.wow64 ≠ 0 → ∃ t,
      k.sys_read_addr (info.ethread + k.offsets.kthread_teb) = .ok t ∧
      info.teb = t + 0x2000) := by
  unfold process_info_from_eprocess at h
  obtain ⟨pid, hp, h⟩ := except_bind_eq_ok h
  obtain ⟨nm, hn, h⟩ := except_bind_eq_ok h
  obtain ⟨d, hd, h⟩ := except_bind_eq_ok h
  obtain ⟨w, hw, h⟩ := except_bind_eq_ok h
  obtain ⟨pa, hpa, h⟩ := except_bind_eq_ok h
  obtain ⟨np, hnp, h⟩ := except_bind_eq_ok h
  obtain ⟨et0, het, h⟩ := except_bind_eq_ok h
  obtain ⟨teb, ht, h⟩ := except_bind_eq_ok h
  obtain ⟨tp, htp, h⟩ := except_bind_eq_ok h
  obtain ⟨rp, hrp, h⟩ := except_bind_eq_ok h
  obtain ⟨po, hpo, h⟩ := except_bind_eq_ok h
  obtain ⟨pl, hpl, h⟩ := except_bind_eq_ok h
  obtain ⟨pm, hpm, h⟩ := except_bind_eq_ok h
  obtain ⟨lo, hlo, h⟩ := except_bind_eq_ok h
  injection h with h
  subst h
  constructor
  · intro hz
    have hz2 : w = 0 := hz
    rw [if_pos hz2] at ht
    exact ht
  · intro hnz
    have hnz2 : ¬ w = 0 := hnz
    rw [if_neg hnz2] at ht
    obtain ⟨t, ht1, ht2⟩ := except_bind_eq_ok ht
    have ht2b : Except.ok (t + 0x2000) = (Except.ok teb : Except Error Nat) := ht2
    injection ht2b with ht2c
    exact ⟨t, ht1, ht2c.symm⟩

/-- C5 (witness): both branches at concrete kernels: with a non-null
wow64 pointer the teb is the read value plus 0x2000, with a null one it
is the read value unmodified. -/
theorem c5_teb_wow64_adjustment_witness :
    (∃ t, Kernel.sys_read_addr kernOk
        (infoW.ethread + kernOk.offsets.kthread_teb) = .ok t ∧
      infoW.teb = t + 0x2000) ∧
    Kernel.sys_read_addr kernEmpty
      (infoN.ethread + kernEmpty.offsets.kthread_teb) = .ok infoN.teb :=
  ⟨(c5_teb_wow64_adjustment kernOk 0x100000 infoW rfl).2 (by decide),
   (c5_teb_wow64_adjustment kernEmpty 0x100000 infoN rfl).1 (by decide)⟩

/-- C7: when the process list resolves, process_info_pid returns the
first listed process with the requested pid, and the static not-found
error when no listed process has that pid. -/
theorem c7_process_info_pid (fuel : Nat) (k : Kernel) (pid : Int)
    (l : List Win32ProcessInfo)
    (hl : process_info_list fuel k = .ok l) :
    (∀ p, process_info_pid fuel k pid = .ok p →
      p.pid = pid ∧ ∃ l1 l2, l = l1 ++ p :: l2 ∧ ∀ q ∈ l1, q.pid ≠ pid) ∧
    ((∀ q ∈ l, q.pid ≠ pid) →
      process_info_pid fuel k pid = .error (Error.Other "pid not found")) := by
  unfold process_info_pid
  simp only [hl, except_bind_ok]
  constructor
  · intro p hp
    cases hf : l.find? (fun q => q.pid == pid) with
    | none =>
      simp only [hf] at hp
      exact Except.noConfusion hp
    | some p0 =>
      simp only [hf] at hp
      injection hp with hp
      subst hp
      obtain ⟨l1, l2, hsplit, hfp, hall⟩ := list_find_decomp _ l p0 hf
      refine ⟨by simpa using hfp, l1, l2, hsplit, ?_⟩
      intro q hq
      simpa using hall q hq
  · intro hnone
    have hf : l.find? (fun q => q.pid == pid) = none := by
      rw [List.find?_eq_none]
      intro x hx
      simpa using hnone x hx
    simp only [hf]

/-- C7 (witness): on the kernel with an empty process list, the lookup
fails with the static not-found error. -/
theorem c7_process_info_pid_witness :
    process_info_pid 1 kernEmpty 0 = .error (Error.Other "pid not found") :=
  (c7_process_info_pid 1 kernEmpty 0 [] rfl).2 (by simp)

/-- C10: candidate selection of process_info compares the lowercased
stored process name with the lowercased first min(len(name), 14) bytes of
the queried name, so any two query names agreeing on their first 14
characters yield the same candidate set. -/
theorem c10_candidate_take14 (fuel : Nat) (k : Kernel) (n1 n2 : String)
    (h : n1.data.take 14 = n2.data.take 14) :
    process_info_candidates fuel k n1 = process_info_candidates fuel k n2 ∧
    (∀ l, process_info_list fuel k = .ok l →
      ∃ cs, process_info_candidates fuel k n1 = .ok cs ∧
        ∀ p, p ∈ cs ↔ p ∈ l ∧
          p.name.toLower = (query_take_14 n1).toLower) := by
  have hq : query_take_14 n1 = query_take_14 n2 := by
    unfold query_take_14
    rw [take_min_length, take_min_length, h]
  constructor
  · unfold process_info_candidates
    rw [hq]
  · intro l hl
    unfold process_info_candidates
    simp only [hl, except_bind_ok]
    refine ⟨_, rfl, ?_⟩
    intro p
    rw [List.mem_filter]
    simp

/-- C10 (witness): two query names that agree on their first 14
characters and differ afterwards produce the same candidate set. -/
theorem c10_candidate_take14_witness :
    process_info_candidates 1 kernEmpty "abcdefghijklmnop" =
      process_info_candidates 1 kernEmpty "abcdefghijklmnqq" :=
  (c10_candidate_take14 1 kernEmpty "abcdefghijklmnop" "abcdefghijklmnqq"
    (by decide)).1

end Memflow
